import Mathlib

/-!
Tournament service (`services/tournament-service/main.go`).

A shallow embedding of the HTTP handlers of the tournament service over an
explicit relational store.

* The three tables of `createTables` are lists of rows, in insertion order.
* Every `db.Exec` / `db.QueryRow` call of a handler is a function on the store
  that also receives the Go `error` the driver reports for reasons outside the
  rows addressed (connectivity, column types, foreign keys); `none` is `nil`.
  The primary-key constraint is modelled in the store itself, because the
  handlers address rows by id.
* `uuid.New()` and `time.Now()` are inputs of the handler.
* A handler yields the new store, the HTTP response and the values it sends on
  the `broadcast` channel. Handlers are modelled from the decoded request body;
  `log.Printf` output is not modelled.
* Timestamps are natural numbers, Go `int` and SQL `INTEGER` are `Int`; a value
  outside the column range is one of the reasons for which the store returns an
  error.
* Embedded: `createTournament`, `updateTournament`, `deleteTournament`,
  `registerTeam`, `getBracket`, `updateMatch`, `handleWebSocket`,
  `handleBroadcast`. The read-only handlers `getTournaments`, `getTournament`,
  `getMatches` and `healthCheck` are left out.
-/

namespace TournamentService

/-! ## Data model -/

/-- Go `error`: `none` is `nil`, `some msg` an error whose `Error()` is `msg`. -/
abbrev GoError := Option String

/-- Row of table `tournaments`, and the Go struct `Tournament`. -/
structure Tournament where
  ID : String
  Name : String
  GameID : String
  OrganizerID : String
  BracketType : String
  MaxTeams : Int
  CurrentTeams : Int
  PrizePoolCents : Int
  StartDate : Nat
  EndDate : Nat
  Status : String
  Rules : String
  CreatedAt : Nat
  UpdatedAt : Nat
deriving DecidableEq, Repr

/-- Go struct `CreateTournamentRequest`. -/
structure CreateTournamentRequest where
  Name : String
  GameID : String
  BracketType : String
  MaxTeams : Int
  PrizePoolCents : Int
  StartDate : Nat
  EndDate : Nat
  Rules : String
deriving DecidableEq, Repr

/-- Row of table `teams`, and the Go struct `Team`. -/
structure Team where
  ID : String
  TournamentID : String
  Name : String
  CaptainID : String
  Members : List String
  Seed : Int
  Status : String
  CreatedAt : Nat
deriving DecidableEq, Repr

/-- Row of table `matches`: every column but `id`, `round` and `match_number`
is nullable in the schema of `createTables`. -/
structure MatchRow where
  id : String
  tournament_id : Option String
  round : Int
  match_number : Int
  team1_id : Option String
  team2_id : Option String
  winner_id : Option String
  score : Option String
  status : Option String
  scheduled_at : Option Nat
  started_at : Option Nat
  completed_at : Option Nat
deriving DecidableEq, Repr

/-- Go struct `Match`; `StartedAt` and `CompletedAt` are pointers. -/
structure Match where
  ID : String
  TournamentID : String
  Round : Int
  MatchNumber : Int
  Team1ID : String
  Team2ID : String
  WinnerID : String
  Score : String
  Status : String
  ScheduledAt : Nat
  StartedAt : Option Nat
  CompletedAt : Option Nat
deriving DecidableEq, Repr

/-- The database: the three tables created by `createTables`. -/
structure Store where
  tournaments : List Tournament
  teams : List Team
  matchRows : List MatchRow
deriving DecidableEq, Repr

/-- The store before any command. -/
def Store.empty : Store := ⟨[], [], []⟩

/-- Values sent on the `broadcast` channel (the `map[string]interface{}`
literals of the handlers, by their `"type"`). -/
inductive Event where
  | tournament_created (tournament : Tournament)
  | tournament_updated (tournament_id : String)
  | team_registered (tournament_id team_id team_name : String)
  | match_updated (match_id status winner score : String)
deriving DecidableEq, Repr

/-- What a handler writes as the response body. -/
inductive Body where
  | error (msg : String)
  | tournament (t : Tournament)
  | message (msg : String)
  | teamRegistered (team_id msg : String)
  | bracket (b : List (Int × List Match))
  | empty
deriving DecidableEq, Repr

/-- HTTP response: status code and body. -/
structure Response where
  code : Nat
  body : Body
deriving DecidableEq, Repr

/-- Outcome of one handler run. -/
structure Result where
  store : Store
  resp : Response
  events : List Event
deriving DecidableEq, Repr

/-- The default user id the handlers use when header `X-User-ID` is empty. -/
def defaultUserID : String := "00000000-0000-0000-0000-000000000000"

/-- Text of the driver error for a primary-key violation. -/
def duplicateKey : String := "pq: duplicate key value violates unique constraint"

/-! ## Store statements -/

/-- The query `SELECT current_teams, max_teams FROM tournaments WHERE id = $1`
read with `QueryRow(..).Scan`: the first row with the id, an error when there
is none. -/
def selectTeamCounts (s : Store) (id : String) (err : GoError) : Except String (Int × Int) :=
  match err with
  | some e => .error e
  | none =>
    match s.tournaments.find? (fun t => t.ID == id) with
    | none => .error "sql: no rows in result set"
    | some t => .ok (t.CurrentTeams, t.MaxTeams)

/-- The statement `INSERT INTO teams (...) VALUES (...)`. -/
def insertTeam (s : Store) (row : Team) (err : GoError) : Except String Store :=
  match err with
  | some e => .error e
  | none =>
    if s.teams.any (fun tm => tm.ID == row.ID) then .error duplicateKey
    else .ok { s with teams := s.teams ++ [row] }

/-- What `SET current_teams = current_teams + 1 WHERE id = $1` does to one row. -/
def bumpTeams (id : String) (t : Tournament) : Tournament :=
  if t.ID == id then { t with CurrentTeams := t.CurrentTeams + 1 } else t

/-- The statement
`UPDATE tournaments SET current_teams = current_teams + 1 WHERE id = $1`. -/
def incrementTeamCount (s : Store) (id : String) (err : GoError) : Except String Store :=
  match err with
  | some e => .error e
  | none => .ok { s with tournaments := s.tournaments.map (bumpTeams id) }

/-- The statement `INSERT INTO tournaments (...) VALUES (...)`. -/
def insertTournament (s : Store) (row : Tournament) (err : GoError) : Except String Store :=
  match err with
  | some e => .error e
  | none =>
    if s.tournaments.any (fun t => t.ID == row.ID) then .error duplicateKey
    else .ok { s with tournaments := s.tournaments ++ [row] }

/-! ## `registerTeam` -/

/-- Decoded body and header of a registration request. -/
structure RegisterTeamRequest where
  Name : String
  Members : List String
  userID : String
deriving DecidableEq, Repr

/-- What the environment supplies to one run of `registerTeam`: the fresh uuid,
the store clock for `created_at`, and the error of each store call. -/
structure RegisterTeamEnv where
  teamID : String
  dbNow : Nat
  selectErr : GoError
  insertErr : GoError
  updateErr : GoError
deriving DecidableEq, Repr

/-- Environment in which no store call reports an error. -/
def RegisterTeamEnv.ok (teamID : String) (dbNow : Nat) : RegisterTeamEnv :=
  ⟨teamID, dbNow, none, none, none⟩

/-- The row `registerTeam` inserts. -/
def newTeam (tournamentID : String) (req : RegisterTeamRequest) (env : RegisterTeamEnv)
    (currentTeams : Int) : Team :=
  { ID := env.teamID
    TournamentID := tournamentID
    Name := req.Name
    CaptainID := if req.userID = "" then defaultUserID else req.userID
    Members := req.Members
    Seed := currentTeams + 1
    Status := "registered"
    CreatedAt := env.dbNow }

/-- Handler `registerTeam` (`POST /tournaments/{id}/register`). -/
def registerTeam (s : Store) (tournamentID : String) (req : RegisterTeamRequest)
    (env : RegisterTeamEnv) : Result :=
  match selectTeamCounts s tournamentID env.selectErr with
  | .error _ => ⟨s, ⟨404, .error "Tournament not found"⟩, []⟩
  | .ok (currentTeams, maxTeams) =>
    if currentTeams ≥ maxTeams then
      ⟨s, ⟨400, .error "Tournament is full"⟩, []⟩
    else
      match insertTeam s (newTeam tournamentID req env currentTeams) env.insertErr with
      | .error e => ⟨s, ⟨500, .error e⟩, []⟩
      | .ok s1 =>
        let s2 := match incrementTeamCount s1 tournamentID env.updateErr with
          | .error _ => s1
          | .ok s2 => s2
        ⟨s2, ⟨201, .teamRegistered env.teamID "Team registered successfully"⟩,
          [.team_registered tournamentID env.teamID req.Name]⟩

/-- The stored tournament a handler reaches through `WHERE id = $1`. -/
def Store.tournament? (s : Store) (id : String) : Option Tournament :=
  s.tournaments.find? (fun t => t.ID == id)

/-! ## `createTournament`, `updateTournament`, `deleteTournament` -/

/-- What the environment supplies to one run of `createTournament`: the fresh
uuid, the two readings of `time.Now()` and the error of the `INSERT`. -/
structure CreateTournamentEnv where
  tournamentID : String
  createdAt : Nat
  updatedAt : Nat
  insertErr : GoError
deriving DecidableEq, Repr

/-- The struct `createTournament` builds from the request. -/
def newTournament (req : CreateTournamentRequest) (userID : String)
    (env : CreateTournamentEnv) : Tournament :=
  { ID := env.tournamentID
    Name := req.Name
    GameID := req.GameID
    OrganizerID := if userID = "" then defaultUserID else userID
    BracketType := req.BracketType
    MaxTeams := req.MaxTeams
    CurrentTeams := 0
    PrizePoolCents := req.PrizePoolCents
    StartDate := req.StartDate
    EndDate := req.EndDate
    Status := "upcoming"
    Rules := req.Rules
    CreatedAt := env.createdAt
    UpdatedAt := env.updatedAt }

/-- Handler `createTournament` (`POST /tournaments`); `userID` is header
`X-User-ID`. -/
def createTournament (s : Store) (req : CreateTournamentRequest) (userID : String)
    (env : CreateTournamentEnv) : Result :=
  let tournament := newTournament req userID env
  match insertTournament s tournament env.insertErr with
  | .error e => ⟨s, ⟨500, .error e⟩, []⟩
  | .ok s1 => ⟨s1, ⟨201, .tournament tournament⟩, [.tournament_created tournament]⟩

/-- What the `UPDATE tournaments SET name = $1, ...` of `updateTournament` does
to one row: `game_id`, `current_teams` and `status` are not in the `SET` list. -/
def setTournament (id : String) (req : CreateTournamentRequest) (now : Nat)
    (t : Tournament) : Tournament :=
  if t.ID == id then
    { t with
      Name := req.Name
      BracketType := req.BracketType
      MaxTeams := req.MaxTeams
      PrizePoolCents := req.PrizePoolCents
      StartDate := req.StartDate
      EndDate := req.EndDate
      Rules := req.Rules
      UpdatedAt := now }
  else t

/-- Handler `updateTournament` (`PUT /tournaments/{id}`). -/
def updateTournament (s : Store) (id : String) (req : CreateTournamentRequest) (now : Nat)
    (execErr : GoError) : Result :=
  match execErr with
  | some e => ⟨s, ⟨500, .error e⟩, []⟩
  | none =>
    ⟨{ s with tournaments := s.tournaments.map (setTournament id req now) },
      ⟨200, .message "Tournament updated successfully"⟩, [.tournament_updated id]⟩

/-- Handler `deleteTournament` (`DELETE /tournaments/{id}`): the rows of `teams`
and `matches` that reference the tournament go with it (`ON DELETE CASCADE`). -/
def deleteTournament (s : Store) (id : String) (execErr : GoError) : Result :=
  match execErr with
  | some e => ⟨s, ⟨500, .error e⟩, []⟩
  | none =>
    ⟨{ tournaments := s.tournaments.filter (fun t => t.ID != id)
       teams := s.teams.filter (fun tm => tm.TournamentID != id)
       matchRows := s.matchRows.filter (fun m => m.tournament_id != some id) },
      ⟨204, .empty⟩, []⟩

/-! ## `updateMatch` -/

/-- Decoded body of an `updateMatch` request; an absent field is `""`. -/
structure UpdateMatchRequest where
  WinnerID : String
  Score : String
  Status : String
deriving DecidableEq, Repr

/-- The `SET` list `updateMatch` builds, applied to one row: winner, score and
status always, `started_at` for status `in_progress`, `completed_at` for status
`completed`. -/
def setMatch (update : UpdateMatchRequest) (now : Nat) (m : MatchRow) : MatchRow :=
  let m1 := { m with
    winner_id := some update.WinnerID
    score := some update.Score
    status := some update.Status }
  if update.Status = "in_progress" then { m1 with started_at := some now }
  else if update.Status = "completed" then { m1 with completed_at := some now }
  else m1

/-- The `UPDATE matches SET ... WHERE id = $n` of `updateMatch` on one row. -/
def setMatchWhere (matchID : String) (update : UpdateMatchRequest) (now : Nat)
    (m : MatchRow) : MatchRow :=
  if m.id == matchID then setMatch update now m else m

/-- Handler `updateMatch` (`PUT /tournaments/{id}/matches/{matchId}`); the
`{id}` of the path is not read. -/
def updateMatch (s : Store) (matchID : String) (update : UpdateMatchRequest) (now : Nat)
    (execErr : GoError) : Result :=
  match execErr with
  | some e => ⟨s, ⟨500, .error e⟩, []⟩
  | none =>
    ⟨{ s with matchRows := s.matchRows.map (setMatchWhere matchID update now) },
      ⟨200, .message "Match updated successfully"⟩,
      [.match_updated matchID update.Status update.WinnerID update.Score]⟩

/-! ## `getBracket` -/

/-- Order of `ORDER BY round, match_number`. -/
def roundMatchLe (a b : MatchRow) : Bool :=
  a.round < b.round || (a.round == b.round && a.match_number ≤ b.match_number)

/-- The query of `getBracket`: `SELECT ... FROM matches WHERE tournament_id = $1
ORDER BY round, match_number`. -/
def selectMatches (s : Store) (tournamentID : String) : List MatchRow :=
  (s.matchRows.filter (fun m => m.tournament_id == some tournamentID)).mergeSort roundMatchLe

/-- What `rows.Scan(&m.ID, &m.Round, &m.MatchNumber, &m.Team1ID, &m.Team2ID,
&m.WinnerID, &m.Score, &m.Status)` of `getBracket` yields for one row: `Scan`
cannot store NULL in a `string`, so a row with a NULL in one of the five
nullable columns read gives an error (`none`). The fields not scanned keep
their zero value. -/
def scanBracketRow (tournamentID : String) (r : MatchRow) : Option Match :=
  match r.team1_id, r.team2_id, r.winner_id, r.score, r.status with
  | some team1, some team2, some winner, some score, some status =>
    some { ID := r.id
           TournamentID := tournamentID
           Round := r.round
           MatchNumber := r.match_number
           Team1ID := team1
           Team2ID := team2
           WinnerID := winner
           Score := score
           Status := status
           ScheduledAt := 0
           StartedAt := none
           CompletedAt := none }
  | _, _, _, _, _ => none

/-- The slice `matches` of `getBracket`: the rows in the order returned, a row
whose `Scan` fails skipped (`continue`). -/
def scanMatches (tournamentID : String) (rows : List MatchRow) : List Match :=
  rows.filterMap (scanBracketRow tournamentID)

/-- Go `map[int][]Match` as a list of entries with distinct keys. -/
abbrev Bracket := List (Int × List Match)

/-- Go `bracket[k]`: the stored slice, `nil` for an absent key. -/
def Bracket.get (b : Bracket) (k : Int) : List Match :=
  match b with
  | [] => []
  | (k1, v) :: rest => if k1 = k then v else Bracket.get rest k

/-- Go `bracket[k] = v`. -/
def Bracket.set (b : Bracket) (k : Int) (v : List Match) : Bracket :=
  match b with
  | [] => [(k, v)]
  | (k1, v1) :: rest => if k1 = k then (k, v) :: rest else (k1, v1) :: Bracket.set rest k v

/-- Whether the map has an entry for the key (Go `_, ok := bracket[k]`). -/
def Bracket.has (b : Bracket) (k : Int) : Bool :=
  b.any (fun e => e.1 == k)

/-- The grouping loop of `getBracket`:
`bracket[match.Round] = append(bracket[match.Round], match)`. -/
def groupByRound (ms : List Match) : Bracket :=
  ms.foldl (fun bracket m => bracket.set m.Round (bracket.get m.Round ++ [m])) []

/-- The body of `getBracket` after the query: scan the rows returned, group the
matches by round. -/
def buildBracket (tournamentID : String) (rows : List MatchRow) : Bracket :=
  groupByRound (scanMatches tournamentID rows)

/-- Handler `getBracket` (`GET /tournaments/{id}/bracket`). -/
def getBracket (s : Store) (tournamentID : String) (queryErr : GoError) : Result :=
  match queryErr with
  | some e => ⟨s, ⟨500, .error e⟩, []⟩
  | none =>
    ⟨s, ⟨200, .bracket (buildBracket tournamentID (selectMatches s tournamentID))⟩, []⟩

/-! ## WebSocket hub: `handleWebSocket`, `handleBroadcast` -/

/-- The global map `clients`: its keys, each a connection identity. -/
abbrev Clients := List Nat

/-- Handler `handleWebSocket` (`/tournaments/{id}/live`) up to its read loop:
after a successful upgrade, `clients[conn] = true`. The `{id}` of the path is
not read. -/
def handleWebSocket (clients : Clients) (_tournamentID : String) (conn : Nat)
    (upgradeErr : GoError) : Clients :=
  match upgradeErr with
  | some _ => clients
  | none => if conn ∈ clients then clients else clients ++ [conn]

/-- End of the read loop of `handleWebSocket`: `delete(clients, conn)`. -/
def disconnect (clients : Clients) (conn : Nat) : Clients :=
  clients.filter (fun c => c != conn)

/-- One round of the loop of `handleBroadcast` for a received `msg`:
`WriteJSON` to every client of the map; a client whose write fails is closed
and deleted. Gives the deliveries made (connection, message) and the map
afterwards. -/
def handleBroadcast (clients : Clients) (writeErr : Nat → Bool) (msg : Event) :
    List (Nat × Event) × Clients :=
  clients.foldl
    (fun acc client =>
      if writeErr client then (acc.1, disconnect acc.2 client)
      else (acc.1 ++ [(client, msg)], acc.2))
    ([], clients)

/-- The hub after a list of connection requests (tournament of the path,
connection), each upgraded without error. -/
def connectAll (clients : Clients) (reqs : List (String × Nat)) : Clients :=
  reqs.foldl (fun cs r => handleWebSocket cs r.1 r.2 none) clients

/-! ## Runs of commands -/

/-- Number of teams of the store that reference the tournament and are not
withdrawn. -/
def activeTeams (s : Store) (tournamentID : String) : Int :=
  ((s.teams.filter
    (fun tm => tm.TournamentID == tournamentID && tm.Status != "withdrawn")).length : Nat)

/-- Registration requests for one tournament, served one after another. -/
def runRegistrations (s : Store) (tournamentID : String) :
    List (RegisterTeamRequest × RegisterTeamEnv) → Store
  | [] => s
  | c :: rest => runRegistrations (registerTeam s tournamentID c.1 c.2).store tournamentID rest

/-- The mutating commands of the service, each with its request and what the
environment supplies to the run. -/
inductive Cmd where
  | createTournament (req : CreateTournamentRequest) (userID : String)
      (env : CreateTournamentEnv)
  | updateTournament (id : String) (req : CreateTournamentRequest) (now : Nat)
      (execErr : GoError)
  | registerTeam (tournamentID : String) (req : RegisterTeamRequest) (env : RegisterTeamEnv)
  | updateMatch (matchID : String) (update : UpdateMatchRequest) (now : Nat)
      (execErr : GoError)
  | deleteTournament (id : String) (execErr : GoError)
deriving DecidableEq, Repr

/-- One command served on a store. -/
def Cmd.serve (s : Store) : Cmd → Result
  | .createTournament req userID env => TournamentService.createTournament s req userID env
  | .updateTournament id req now execErr => TournamentService.updateTournament s id req now execErr
  | .registerTeam tournamentID req env => TournamentService.registerTeam s tournamentID req env
  | .updateMatch matchID update now execErr =>
      TournamentService.updateMatch s matchID update now execErr
  | .deleteTournament id execErr => TournamentService.deleteTournament s id execErr

/-- The store after a list of commands served one after another. -/
def run (s : Store) : List Cmd → Store
  | [] => s
  | c :: rest => run (c.serve s).store rest

/-- A command that keeps capacities consistent on the store it is served on: a
creation with a capacity of at least zero, a tournament update that does not
take the capacity below the teams already counted; the others always. -/
def Cmd.keepsCapacity (s : Store) : Cmd → Prop
  | .createTournament req _ _ => 0 ≤ req.MaxTeams
  | .updateTournament id req _ _ =>
      ∀ t ∈ s.tournaments, t.ID = id → t.CurrentTeams ≤ req.MaxTeams
  | _ => True

/-- Every command of the list keeps capacities consistent on the store it is
served on. -/
def allKeepCapacity (s : Store) : List Cmd → Prop
  | [] => True
  | c :: rest => c.keepsCapacity s ∧ allKeepCapacity (c.serve s).store rest

/-- What the invariant proofs keep about a store: tournament ids are distinct
and no count of teams is negative. -/
def StoreInv (s : Store) : Prop :=
  (s.tournaments.map (fun t => t.ID)).Nodup ∧ ∀ t ∈ s.tournaments, 0 ≤ t.CurrentTeams

/-- No count of teams is above the capacity of its tournament. -/
def WithinCapacity (s : Store) : Prop :=
  ∀ t ∈ s.tournaments, t.CurrentTeams ≤ t.MaxTeams

/-! ## Concurrent registrations

Each store statement is atomic; a registration is the sequence of its store
calls, and a schedule picks which registration makes its next call. -/

/-- Where a run of `registerTeam` stands between its store calls. -/
inductive RegPhase where
  | start
  | checked (currentTeams : Int)
  | inserted
  | done (resp : Response) (events : List Event)
deriving DecidableEq, Repr

/-- The next store call of a run of `registerTeam`, with the code up to the
call after it. -/
def regStep (s : Store) (tournamentID : String) (req : RegisterTeamRequest)
    (env : RegisterTeamEnv) : RegPhase → Store × RegPhase
  | .start =>
    match selectTeamCounts s tournamentID env.selectErr with
    | .error _ => (s, .done ⟨404, .error "Tournament not found"⟩ [])
    | .ok (currentTeams, maxTeams) =>
      if currentTeams ≥ maxTeams then (s, .done ⟨400, .error "Tournament is full"⟩ [])
      else (s, .checked currentTeams)
  | .checked currentTeams =>
    match insertTeam s (newTeam tournamentID req env currentTeams) env.insertErr with
    | .error e => (s, .done ⟨500, .error e⟩ [])
    | .ok s1 => (s1, .inserted)
  | .inserted =>
    let s2 := match incrementTeamCount s tournamentID env.updateErr with
      | .error _ => s
      | .ok s2 => s2
    (s2, .done ⟨201, .teamRegistered env.teamID "Team registered successfully"⟩
      [.team_registered tournamentID env.teamID req.Name])
  | .done resp events => (s, .done resp events)

/-- One registration in flight. -/
structure RegThread where
  req : RegisterTeamRequest
  env : RegisterTeamEnv
  phase : RegPhase
deriving DecidableEq, Repr

/-- The registration at index `i` makes its next store call. -/
def stepThread (tournamentID : String) (st : Store × List RegThread) (i : Nat) :
    Store × List RegThread :=
  match st.2.get? i with
  | none => st
  | some th =>
    let r := regStep st.1 tournamentID th.req th.env th.phase
    (r.1, st.2.set i { th with phase := r.2 })

/-- The registrations run under a schedule, all starting at `start`. -/
def runSchedule (s : Store) (tournamentID : String)
    (calls : List (RegisterTeamRequest × RegisterTeamEnv)) (schedule : List Nat) :
    Store × List RegThread :=
  schedule.foldl (stepThread tournamentID) (s, calls.map fun c => ⟨c.1, c.2, .start⟩)

/-- Number of registrations that ended with the given status code. -/
def countCode (threads : List RegThread) (code : Nat) : Nat :=
  (threads.filter fun th =>
    match th.phase with
    | .done resp _ => resp.code == code
    | _ => false).length

/-! ## The match state machine as the specification words it -/

/-- The transitions the specification allows: scheduled to in_progress,
in_progress to completed, scheduled or in_progress to cancelled. -/
def specAllowsTransition (old new : String) : Bool :=
  (old == "scheduled" && new == "in_progress") ||
  (old == "in_progress" && new == "completed") ||
  (old == "scheduled" && new == "cancelled") ||
  (old == "in_progress" && new == "cancelled")

/-- The winner rule of the specification for a completion: the winner is one
of the two team references of the match. -/
def specValidWinner (m : MatchRow) (winner : String) : Bool :=
  m.team1_id == some winner || m.team2_id == some winner

/-! ## Example data -/

/-- The id of tournament `t1` in the examples. -/
def exT1 : String := "11111111-1111-1111-1111-111111111111"

/-- The id of tournament `t2` in the examples. -/
def exT2 : String := "22222222-2222-2222-2222-222222222222"

/-- The id of the game of the example tournaments. -/
def exGame : String := "99999999-9999-9999-9999-999999999999"

/-- The id of team `a` in the examples. -/
def exA : String := "aaaaaaaa-aaaa-aaaa-aaaa-aaaaaaaaaaaa"

/-- The id of team `b` in the examples. -/
def exB : String := "bbbbbbbb-bbbb-bbbb-bbbb-bbbbbbbbbbbb"

/-- The id of team `c` in the examples. -/
def exC : String := "cccccccc-cccc-cccc-cccc-cccccccccccc"

/-- The id of match `m1` in the examples. -/
def exM1 : String := "eeeeeeee-eeee-eeee-eeee-eeeeeeeeeeee"

/-- A tournament `t1` with the given counts. -/
def exTournament (currentTeams maxTeams : Int) : Tournament :=
  { ID := exT1, Name := "Cup", GameID := exGame, OrganizerID := defaultUserID,
    BracketType := "single-elimination", MaxTeams := maxTeams, CurrentTeams := currentTeams,
    PrizePoolCents := 0, StartDate := 10, EndDate := 20, Status := "upcoming", Rules := "",
    CreatedAt := 1, UpdatedAt := 1 }

/-- A store with tournament `t1`, no team registered, one slot. -/
def exStoreOneSlot : Store := ⟨[exTournament 0 1], [], []⟩

/-- A registration request with the given team name, no `X-User-ID` header. -/
def exRegister (name : String) : RegisterTeamRequest := ⟨name, ["p1", "p2"], ""⟩

/-- A registered team of tournament `t1`. -/
def exTeam (id : String) (seed : Int) : Team :=
  { ID := id, TournamentID := exT1, Name := id, CaptainID := defaultUserID, Members := [],
    Seed := seed, Status := "registered", CreatedAt := 2 }

/-- Match `m1` of tournament `t1` between teams `a` and `b`, in the given
status, with the given winner and timestamps. -/
def exMatch (status : String) (winner : Option String) (started completed : Option Nat) :
    MatchRow :=
  { id := exM1, tournament_id := some exT1, round := 1, match_number := 1,
    team1_id := some exA, team2_id := some exB, winner_id := winner, score := none,
    status := some status, scheduled_at := some 50, started_at := started,
    completed_at := completed }

/-- A store with tournament `t1`, teams `a`, `b`, `c` and the one match row. -/
def exStoreMatch (m : MatchRow) : Store :=
  ⟨[exTournament 3 4], [exTeam exA 1, exTeam exB 2, exTeam exC 3], [m]⟩

/-- Two registrations, of teams `A` and `B`, with fresh uuids and no store
error. -/
def exTwoCalls : List (RegisterTeamRequest × RegisterTeamEnv) :=
  [(exRegister "A", .ok exA 5), (exRegister "B", .ok exB 6)]

/-- The schedule in which both registrations read the counts before either
inserts: SELECT(A), SELECT(B), INSERT(A), UPDATE(A), INSERT(B), UPDATE(B). -/
def exRaceSchedule : List Nat := [0, 1, 0, 0, 1, 1]

/-- The schedule in which registration `A` makes its three calls, then `B`. -/
def exSerialSchedule : List Nat := [0, 0, 0, 1, 1, 1]

/-- A creation request with the given capacity. -/
def exCreate (maxTeams : Int) : CreateTournamentRequest :=
  { Name := "Cup", GameID := exGame, BracketType := "single-elimination", MaxTeams := maxTeams,
    PrizePoolCents := 0, StartDate := 10, EndDate := 20, Rules := "" }

/-- The environment of a creation that gets uuid `t1` and no store error. -/
def exCreateEnv : CreateTournamentEnv := ⟨exT1, 1, 1, none⟩

/-! ## Theorems -/

theorem find?_map_of_id (l : List Tournament) (f : Tournament → Tournament) (id : String)
    (hf : ∀ t, (f t).ID = t.ID) :
    (l.map f).find? (fun t => t.ID == id) = (l.find? (fun t => t.ID == id)).map f := by
  induction l with
  | nil => rfl
  | cons a l ih =>
    simp only [List.map, List.find?_cons, hf]
    cases a.ID == id <;> simp [ih]

theorem teams_any_false_of_fresh (l : List Team) (id : String) (h : ∀ tm ∈ l, tm.ID ≠ id) :
    l.any (fun tm => tm.ID == id) = false := by
  simpa [List.any_eq_false] using h

theorem bumpTeams_ID (id : String) (t : Tournament) : (bumpTeams id t).ID = t.ID := by
  unfold bumpTeams; split <;> rfl

/-- Result of `registerTeam` on the path where the tournament has room and the
store accepts both statements. -/
theorem registerTeam_ok (s : Store) (tournamentID : String) (t : Tournament)
    (req : RegisterTeamRequest) (env : RegisterTeamEnv)
    (ht : s.tournament? tournamentID = some t) (hsel : env.selectErr = none)
    (hlt : t.CurrentTeams < t.MaxTeams) (hins : env.insertErr = none)
    (hupd : env.updateErr = none) (hfresh : ∀ tm ∈ s.teams, tm.ID ≠ env.teamID) :
    registerTeam s tournamentID req env =
      ⟨⟨s.tournaments.map (bumpTeams tournamentID),
        s.teams ++ [newTeam tournamentID req env t.CurrentTeams], s.matchRows⟩,
       ⟨201, .teamRegistered env.teamID "Team registered successfully"⟩,
       [.team_registered tournamentID env.teamID req.Name]⟩ := by
  have hfind : s.tournaments.find? (fun t => t.ID == tournamentID) = some t := ht
  have hnot : ¬ t.CurrentTeams ≥ t.MaxTeams := not_le.mpr hlt
  have hany := teams_any_false_of_fresh s.teams env.teamID hfresh
  have hany2 : (s.teams.any fun tm => tm.ID == (newTeam tournamentID req env t.CurrentTeams).ID)
      = false := hany
  simp only [registerTeam, selectTeamCounts, hsel, hfind, hnot, insertTeam, hins, hany2,
    incrementTeamCount, hupd, if_false]
  rfl

/-- C1, counterexample: tournament `t1` is stored with counts (0, 1), so it has
room. A registration whose `INSERT` the store refuses is answered 500 and no
team is created; a registration whose count `UPDATE` the store refuses is
answered 201 with the team stored and current_teams still 0; and when the
store refuses the `SELECT`, the answer is 404, not the capacity error, even
for the full tournament. -/
theorem registerTeam_store_refusals :
    exStoreOneSlot.tournament? exT1 = some (exTournament 0 1) ∧
    registerTeam exStoreOneSlot exT1 (exRegister "A")
        ⟨exA, 5, none, some "driver: bad connection", none⟩
      = ⟨exStoreOneSlot, ⟨500, .error "driver: bad connection"⟩, []⟩ ∧
    registerTeam exStoreOneSlot exT1 (exRegister "A")
        ⟨exA, 5, none, none, some "driver: bad connection"⟩
      = ⟨⟨[exTournament 0 1],
          [⟨exA, exT1, "A", defaultUserID, ["p1", "p2"], 1, "registered", 5⟩], []⟩,
         ⟨201, .teamRegistered exA "Team registered successfully"⟩,
         [.team_registered exT1 exA "A"]⟩ ∧
    registerTeam ⟨[exTournament 1 1], [], []⟩ exT1 (exRegister "A")
        ⟨exA, 5, some "driver: bad connection", none, none⟩
      = ⟨⟨[exTournament 1 1], [], []⟩, ⟨404, .error "Tournament not found"⟩, []⟩ := by
  decide

/-- C1, as the code has it: for a tournament stored with counts (current_teams,
max_teams) that the store returns to the `SELECT`, `registerTeam` answers 400
"Tournament is full" and changes nothing if current_teams >= max_teams.
Otherwise, when the store executes the `INSERT` (the uuid being fresh) and the
count `UPDATE`, it appends exactly one team for the tournament, with seed
current_teams + 1 and status "registered", and the tournament's current_teams
becomes current_teams + 1; and when the store refuses the `INSERT`, with an
error of its own or because the uuid is taken, the answer is 500 and nothing
changes. -/
theorem registerTeam_contract (s : Store) (tournamentID : String) (t : Tournament)
    (req : RegisterTeamRequest) (env : RegisterTeamEnv)
    (ht : s.tournament? tournamentID = some t) (hsel : env.selectErr = none) :
    (t.CurrentTeams ≥ t.MaxTeams →
      registerTeam s tournamentID req env = ⟨s, ⟨400, .error "Tournament is full"⟩, []⟩) ∧
    (t.CurrentTeams < t.MaxTeams → env.insertErr = none → env.updateErr = none →
      (∀ tm ∈ s.teams, tm.ID ≠ env.teamID) →
      ∃ team : Team,
        (registerTeam s tournamentID req env).store.teams = s.teams ++ [team] ∧
        team.ID = env.teamID ∧ team.TournamentID = tournamentID ∧
        team.Seed = t.CurrentTeams + 1 ∧ team.Status = "registered" ∧
        (registerTeam s tournamentID req env).store.tournament? tournamentID
          = some { t with CurrentTeams := t.CurrentTeams + 1 } ∧
        (registerTeam s tournamentID req env).store.matchRows = s.matchRows ∧
        (registerTeam s tournamentID req env).resp.code = 201 ∧
        (registerTeam s tournamentID req env).events
          = [.team_registered tournamentID env.teamID req.Name]) ∧
    (t.CurrentTeams < t.MaxTeams → ∀ e : String, env.insertErr = some e →
      registerTeam s tournamentID req env = ⟨s, ⟨500, .error e⟩, []⟩) ∧
    (t.CurrentTeams < t.MaxTeams → env.insertErr = none →
      (∃ tm ∈ s.teams, tm.ID = env.teamID) →
      registerTeam s tournamentID req env = ⟨s, ⟨500, .error duplicateKey⟩, []⟩) := by
  have hfind : s.tournaments.find? (fun t => t.ID == tournamentID) = some t := ht
  refine ⟨fun hfull => ?_, fun hlt hins hupd hfresh => ?_, fun hlt e hins => ?_,
    fun hlt hins hdup => ?_⟩
  · simp [registerTeam, selectTeamCounts, hsel, hfind, hfull]
  · rw [registerTeam_ok s tournamentID t req env ht hsel hlt hins hupd hfresh]
    refine ⟨newTeam tournamentID req env t.CurrentTeams,
      rfl, rfl, rfl, rfl, rfl, ?_, rfl, rfl, rfl⟩
    have hid : t.ID = tournamentID := by simpa using List.find?_some hfind
    simp only [Store.tournament?]
    rw [find?_map_of_id _ _ _ (bumpTeams_ID tournamentID), hfind]
    simp [bumpTeams, hid]
  · have hnot : ¬ t.CurrentTeams ≥ t.MaxTeams := not_le.mpr hlt
    simp [registerTeam, selectTeamCounts, hsel, hfind, hnot, insertTeam, hins]
  · have hnot : ¬ t.CurrentTeams ≥ t.MaxTeams := not_le.mpr hlt
    have hany : (s.teams.any fun tm =>
        tm.ID == (newTeam tournamentID req env t.CurrentTeams).ID) = true := by
      obtain ⟨tm, htm, hid⟩ := hdup
      simp only [List.any_eq_true, beq_iff_eq]
      exact ⟨tm, htm, hid⟩
    simp only [registerTeam, selectTeamCounts, hsel, hfind, hnot, insertTeam, hins, hany,
      if_true, if_false]

/-- Witness of `registerTeam_contract`: tournament `t1` with counts (0, 1) and
one registration. -/
theorem registerTeam_contract_witness :
    exStoreOneSlot.tournament? exT1 = some (exTournament 0 1) ∧
    (registerTeam exStoreOneSlot exT1 (exRegister "A") (.ok exA 5)).store
      = ⟨[exTournament 1 1],
         [⟨exA, exT1, "A", defaultUserID, ["p1", "p2"], 1, "registered", 5⟩], []⟩ ∧
    ∃ team : Team,
      (registerTeam exStoreOneSlot exT1 (exRegister "A") (.ok exA 5)).store.teams
        = [] ++ [team] ∧
      team.ID = exA ∧ team.TournamentID = exT1 ∧ team.Seed = 0 + 1 ∧
      team.Status = "registered" :=
  ⟨by decide, by decide,
    let ⟨team, h1, h2, h3, h4, h5, _⟩ :=
      (registerTeam_contract exStoreOneSlot exT1 (exTournament 0 1) (exRegister "A")
        (.ok exA 5) (by decide) rfl).2.1 (by decide) rfl rfl (by simp [exStoreOneSlot])
    ⟨team, h1, h2, h3, h4, h5⟩⟩

/-! ### Concurrent registrations -/

/-- The three store calls of a registration made with no other call in between
are the handler `registerTeam`. -/
theorem regStep_serial (s : Store) (tournamentID : String) (req : RegisterTeamRequest)
    (env : RegisterTeamEnv) :
    let r1 := regStep s tournamentID req env .start
    let r2 := regStep r1.1 tournamentID req env r1.2
    let r3 := regStep r2.1 tournamentID req env r2.2
    r3 = ((registerTeam s tournamentID req env).store,
          .done (registerTeam s tournamentID req env).resp
            (registerTeam s tournamentID req env).events) := by
  simp only [regStep, registerTeam]
  cases hsel : selectTeamCounts s tournamentID env.selectErr with
  | error e => simp [regStep]
  | ok c =>
    obtain ⟨cur, mx⟩ := c
    by_cases hfull : cur ≥ mx
    · simp [hfull, regStep]
    · simp only [hfull, if_false, regStep]
      cases hins : insertTeam s (newTeam tournamentID req env cur) env.insertErr with
      | error e => simp [regStep]
      | ok s1 => simp [regStep]

/-- C3: tournament `t1` has current_teams = 0 and max_teams = 1; two
registrations run concurrently (max_teams + 1 calls). Under the schedule in
which both read the counts before either inserts, both are answered 201, none
gets the capacity error, two teams are stored with seed 1 and current_teams
ends at 2, above max_teams. -/
theorem registerTeam_race_last_slot :
    (runSchedule exStoreOneSlot exT1 exTwoCalls exRaceSchedule).1
      = ⟨[exTournament 2 1],
         [⟨exA, exT1, "A", defaultUserID, ["p1", "p2"], 1, "registered", 5⟩,
          ⟨exB, exT1, "B", defaultUserID, ["p1", "p2"], 1, "registered", 6⟩], []⟩ ∧
    countCode (runSchedule exStoreOneSlot exT1 exTwoCalls exRaceSchedule).2 201 = 2 ∧
    countCode (runSchedule exStoreOneSlot exT1 exTwoCalls exRaceSchedule).2 400 = 0 := by
  decide

/-- The same two registrations under the serial schedule: one is answered 201,
the other 400, and current_teams ends at 1. -/
theorem registerTeam_serial_last_slot :
    (runSchedule exStoreOneSlot exT1 exTwoCalls exSerialSchedule).1
      = ⟨[exTournament 1 1],
         [⟨exA, exT1, "A", defaultUserID, ["p1", "p2"], 1, "registered", 5⟩], []⟩ ∧
    countCode (runSchedule exStoreOneSlot exT1 exTwoCalls exSerialSchedule).2 201 = 1 ∧
    countCode (runSchedule exStoreOneSlot exT1 exTwoCalls exSerialSchedule).2 400 = 1 := by
  decide

/-! ### `updateMatch` -/

theorem updateMatch_rows (s : Store) (matchID : String) (update : UpdateMatchRequest)
    (now : Nat) :
    (updateMatch s matchID update now none).store.matchRows
      = s.matchRows.map (setMatchWhere matchID update now) := rfl

theorem updateMatch_code_200 (s : Store) (matchID : String) (update : UpdateMatchRequest)
    (now : Nat) (execErr : GoError)
    (h : (updateMatch s matchID update now execErr).resp.code = 200) : execErr = none := by
  cases execErr with
  | none => rfl
  | some e => simp [updateMatch] at h

theorem setMatch_id (update : UpdateMatchRequest) (now : Nat) (m : MatchRow) :
    (setMatch update now m).id = m.id := by
  unfold setMatch; split_ifs <;> rfl

theorem setMatch_status (update : UpdateMatchRequest) (now : Nat) (m : MatchRow) :
    (setMatch update now m).status = some update.Status := by
  unfold setMatch; split_ifs <;> rfl

theorem setMatch_winner (update : UpdateMatchRequest) (now : Nat) (m : MatchRow) :
    (setMatch update now m).winner_id = some update.WinnerID := by
  unfold setMatch; split_ifs <;> rfl

theorem setMatch_teams (update : UpdateMatchRequest) (now : Nat) (m : MatchRow) :
    (setMatch update now m).team1_id = m.team1_id ∧
    (setMatch update now m).team2_id = m.team2_id := by
  unfold setMatch; split_ifs <;> exact ⟨rfl, rfl⟩

/-- The row at an index after an `updateMatch` the store executed. -/
theorem updateMatch_row_at (s : Store) (matchID : String) (update : UpdateMatchRequest)
    (now : Nat) (i : Nat) (m : MatchRow) (hm : s.matchRows[i]? = some m) :
    (updateMatch s matchID update now none).store.matchRows[i]?
      = some (if m.id = matchID then setMatch update now m else m) := by
  rw [updateMatch_rows, List.getElem?_map, hm]
  simp [setMatchWhere]

/-- C4, counterexample: a `scheduled` match is taken to `completed` directly,
and a `completed` match back to `scheduled`; neither transition is allowed by
the specification, both requests are answered 200 and the row is rewritten. -/
theorem updateMatch_accepts_illegal_transitions :
    specAllowsTransition "scheduled" "completed" = false ∧
    updateMatch (exStoreMatch (exMatch "scheduled" none none none)) exM1
        ⟨exA, "2-0", "completed"⟩ 100 none
      = ⟨exStoreMatch { exMatch "completed" (some exA) none (some 100) with score := some "2-0" },
         ⟨200, .message "Match updated successfully"⟩,
         [.match_updated exM1 "completed" exA "2-0"]⟩ ∧
    specAllowsTransition "completed" "scheduled" = false ∧
    updateMatch (exStoreMatch (exMatch "completed" (some exA) (some 90) (some 100))) exM1
        ⟨exA, "2-0", "scheduled"⟩ 200 none
      = ⟨exStoreMatch { exMatch "scheduled" (some exA) (some 90) (some 100) with
            score := some "2-0" },
         ⟨200, .message "Match updated successfully"⟩,
         [.match_updated exM1 "scheduled" exA "2-0"]⟩ := by
  decide

/-- C4, as the code has it: `updateMatch` compares no statuses. Whatever the
stored status and the requested one, when the store executes the `UPDATE` the
request is answered 200, every row with the id gets the requested status and
the other rows stay; the only failure is the store's error, answered 500 with
the store unchanged. -/
theorem updateMatch_any_transition (s : Store) (matchID : String)
    (update : UpdateMatchRequest) (now : Nat) :
    (updateMatch s matchID update now none).resp
      = ⟨200, .message "Match updated successfully"⟩ ∧
    (∀ (i : Nat) (m : MatchRow), s.matchRows[i]? = some m →
      ∃ m1, (updateMatch s matchID update now none).store.matchRows[i]? = some m1 ∧
        (m.id = matchID → m1.status = some update.Status) ∧
        (m.id ≠ matchID → m1 = m)) ∧
    (∀ e : String,
      updateMatch s matchID update now (some e) = ⟨s, ⟨500, .error e⟩, []⟩) := by
  refine ⟨rfl, fun i m hm => ?_, fun e => rfl⟩
  refine ⟨_, updateMatch_row_at s matchID update now i m hm, fun h => ?_, fun h => ?_⟩
  · simp [h, setMatch_status]
  · simp [h]

/-- C5, counterexample: match `m1` is `in_progress` between teams `a` and `b`;
a completion naming the stored team `c` as winner is answered 200, and the
match is stored `completed` with winner `c`. -/
theorem updateMatch_accepts_foreign_winner :
    specValidWinner (exMatch "in_progress" none (some 90) none) exC = false ∧
    updateMatch (exStoreMatch (exMatch "in_progress" none (some 90) none)) exM1
        ⟨exC, "2-0", "completed"⟩ 100 none
      = ⟨exStoreMatch { exMatch "completed" (some exC) (some 90) (some 100) with
            score := some "2-0" },
         ⟨200, .message "Match updated successfully"⟩,
         [.match_updated exM1 "completed" exC "2-0"]⟩ := by
  decide

/-- C5, as the code has it: `updateMatch` does not compare the winner with the
team references. When the store executes the `UPDATE`, the request is answered
200 and every row with the id gets the winner of the request, with its team
references as they were; so after a successful completion the winner of the
match is the `winner_id` of the request, whichever it is. -/
theorem updateMatch_stores_winner (s : Store) (matchID : String)
    (update : UpdateMatchRequest) (now : Nat) :
    (updateMatch s matchID update now none).resp.code = 200 ∧
    ∀ (i : Nat) (m : MatchRow), s.matchRows[i]? = some m → m.id = matchID →
      ∃ m1, (updateMatch s matchID update now none).store.matchRows[i]? = some m1 ∧
        m1.winner_id = some update.WinnerID ∧ m1.status = some update.Status ∧
        m1.team1_id = m.team1_id ∧ m1.team2_id = m.team2_id := by
  refine ⟨rfl, fun i m hm hid => ?_⟩
  refine ⟨_, updateMatch_row_at s matchID update now i m hm, ?_⟩
  simp [hid, setMatch_status, setMatch_winner, setMatch_teams]

/-- C9: after a successful `updateMatch` at time `now`, a row with the id has
`started_at = now` and its old `completed_at` for status `in_progress`,
`completed_at = now` and its old `started_at` for status `completed`, and both
timestamps as before for any other status; a row with another id is as it was. -/
theorem updateMatch_timestamps (s : Store) (matchID : String) (update : UpdateMatchRequest)
    (now : Nat) (execErr : GoError)
    (hok : (updateMatch s matchID update now execErr).resp.code = 200)
    (i : Nat) (m : MatchRow) (hm : s.matchRows[i]? = some m) :
    ∃ m1, (updateMatch s matchID update now execErr).store.matchRows[i]? = some m1 ∧
      (m.id = matchID → update.Status = "in_progress" →
        m1.started_at = some now ∧ m1.completed_at = m.completed_at) ∧
      (m.id = matchID → update.Status = "completed" →
        m1.completed_at = some now ∧ m1.started_at = m.started_at) ∧
      (m.id = matchID → update.Status ≠ "in_progress" → update.Status ≠ "completed" →
        m1.started_at = m.started_at ∧ m1.completed_at = m.completed_at) ∧
      (m.id ≠ matchID → m1 = m) := by
  obtain rfl := updateMatch_code_200 s matchID update now execErr hok
  refine ⟨_, updateMatch_row_at s matchID update now i m hm, ?_, ?_, ?_, ?_⟩
  · intro hid hst; simp [hid, setMatch, hst]
  · intro hid hst; simp [hid, setMatch, hst]
  · intro hid h1 h2; simp [hid, setMatch, h1, h2]
  · intro hid; simp [hid]

/-- Witness of `updateMatch_timestamps`: the scheduled match `m1` is started at
time 90. -/
theorem updateMatch_timestamps_witness :
    (updateMatch (exStoreMatch (exMatch "scheduled" none none none)) exM1
        ⟨exA, "", "in_progress"⟩ 90 none).resp.code = 200 ∧
    (exStoreMatch (exMatch "scheduled" none none none)).matchRows[0]?
      = some (exMatch "scheduled" none none none) ∧
    ∃ m1, (updateMatch (exStoreMatch (exMatch "scheduled" none none none)) exM1
        ⟨exA, "", "in_progress"⟩ 90 none).store.matchRows[0]? = some m1 ∧
      m1.started_at = some 90 ∧ m1.completed_at = none :=
  ⟨rfl, rfl,
    let ⟨m1, h, hstart, _⟩ :=
      updateMatch_timestamps (exStoreMatch (exMatch "scheduled" none none none)) exM1
        ⟨exA, "", "in_progress"⟩ 90 none rfl 0 (exMatch "scheduled" none none none) rfl
    ⟨m1, h, hstart rfl rfl⟩⟩

theorem setMatchWhere_twice (matchID : String) (update : UpdateMatchRequest) (t1 t2 : Nat)
    (m : MatchRow) :
    setMatchWhere matchID update t2 (setMatchWhere matchID update t1 m)
      = setMatchWhere matchID update t2 m := by
  by_cases hid : m.id = matchID
  · have h1 : setMatchWhere matchID update t1 m = setMatch update t1 m := by
      simp [setMatchWhere, hid]
    have h2 : (setMatch update t1 m).id = matchID := by rw [setMatch_id, hid]
    simp only [h1, setMatchWhere, h2, hid, beq_self_eq_true, if_true]
    unfold setMatch
    split_ifs <;> rfl
  · simp [setMatchWhere, hid]

theorem setMatchWhere_other_status (matchID : String) (update : UpdateMatchRequest)
    (t1 t2 : Nat) (m : MatchRow) (h1 : update.Status ≠ "in_progress")
    (h2 : update.Status ≠ "completed") :
    setMatchWhere matchID update t2 m = setMatchWhere matchID update t1 m := by
  simp [setMatchWhere, setMatch, h1, h2]

/-- C6, counterexample: the running match `m1` is completed with winner `a` at
time 100 and the same request is applied again at time 200. The stored
`completed_at` is 100 after the first application and 200 after the second, and
each application sends a `match_updated` event: two in all. -/
theorem updateMatch_retry_not_idempotent :
    (updateMatch (exStoreMatch (exMatch "in_progress" none (some 90) none)) exM1
        ⟨exA, "2-0", "completed"⟩ 100 none).store
      = exStoreMatch { exMatch "completed" (some exA) (some 90) (some 100) with
          score := some "2-0" } ∧
    (updateMatch
        (updateMatch (exStoreMatch (exMatch "in_progress" none (some 90) none)) exM1
          ⟨exA, "2-0", "completed"⟩ 100 none).store exM1
        ⟨exA, "2-0", "completed"⟩ 200 none).store
      = exStoreMatch { exMatch "completed" (some exA) (some 90) (some 200) with
          score := some "2-0" } ∧
    (updateMatch (exStoreMatch (exMatch "in_progress" none (some 90) none)) exM1
        ⟨exA, "2-0", "completed"⟩ 100 none).events ++
    (updateMatch
        (updateMatch (exStoreMatch (exMatch "in_progress" none (some 90) none)) exM1
          ⟨exA, "2-0", "completed"⟩ 100 none).store exM1
        ⟨exA, "2-0", "completed"⟩ 200 none).events
      = [.match_updated exM1 "completed" exA "2-0", .match_updated exM1 "completed" exA "2-0"] := by
  decide

/-- C6, as the code has it: `updateMatch` keeps no record of earlier requests.
Applying the same request at time `t1` and again at time `t2` (the store
executing both) leaves the store that one application at time `t2` leaves: for
a status other than `in_progress` and `completed` (so for `cancelled`) that is
the store after the first application, for `completed` it is that store with
`completed_at = t2`. Each of the two applications sends one `match_updated`
event. -/
theorem updateMatch_twice (s : Store) (matchID : String) (update : UpdateMatchRequest)
    (t1 t2 : Nat) :
    (updateMatch (updateMatch s matchID update t1 none).store matchID update t2 none).store
      = (updateMatch s matchID update t2 none).store ∧
    (update.Status ≠ "in_progress" → update.Status ≠ "completed" →
      (updateMatch (updateMatch s matchID update t1 none).store matchID update t2 none).store
        = (updateMatch s matchID update t1 none).store) ∧
    (update.Status = "completed" →
      ∀ (i : Nat) (m : MatchRow), s.matchRows[i]? = some m → m.id = matchID →
        ∃ m1 m2, (updateMatch s matchID update t1 none).store.matchRows[i]? = some m1 ∧
          (updateMatch (updateMatch s matchID update t1 none).store matchID update t2
            none).store.matchRows[i]? = some m2 ∧
          m1.completed_at = some t1 ∧ m2 = { m1 with completed_at := some t2 }) ∧
    (updateMatch s matchID update t1 none).events
      = [.match_updated matchID update.Status update.WinnerID update.Score] ∧
    (updateMatch (updateMatch s matchID update t1 none).store matchID update t2 none).events
      = [.match_updated matchID update.Status update.WinnerID update.Score] := by
  have htwice : ∀ a b : Nat,
      (updateMatch (updateMatch s matchID update a none).store matchID update b none).store
        = (updateMatch s matchID update b none).store := by
    intro a b
    simp only [updateMatch, List.map_map]
    congr 1
    apply List.map_congr_left
    intro m _
    exact setMatchWhere_twice matchID update a b m
  refine ⟨htwice t1 t2, fun h1 h2 => ?_, fun hc i m hm hid => ?_, rfl, rfl⟩
  · rw [htwice]
    simp only [updateMatch]
    congr 1
    apply List.map_congr_left
    intro m _
    exact setMatchWhere_other_status matchID update t1 t2 m h1 h2
  · refine ⟨if m.id = matchID then setMatch update t1 m else m,
      if m.id = matchID then setMatch update t2 m else m,
      updateMatch_row_at s matchID update t1 i m hm, ?_, ?_, ?_⟩
    · rw [htwice]; exact updateMatch_row_at s matchID update t2 i m hm
    · simp [hid, setMatch, hc]
    · simp [hid, setMatch, hc]

/-! ### WebSocket hub -/

theorem handleBroadcast_fold (writeErr : Nat → Bool) (msg : Event) (l : List Nat) :
    ∀ (d : List (Nat × Event)) (cs : Clients),
      l.foldl
          (fun (acc : List (Nat × Event) × Clients) client =>
            if writeErr client then (acc.1, disconnect acc.2 client)
            else (acc.1 ++ [(client, msg)], acc.2))
          (d, cs)
        = (d ++ (l.filter (fun c => !writeErr c)).map (fun c => (c, msg)),
           cs.filter (fun c => !(writeErr c && l.contains c))) := by
  induction l with
  | nil => intro d cs; simp
  | cons a l ih =>
    intro d cs
    simp only [List.foldl_cons]
    by_cases ha : writeErr a = true
    · simp only [ha, if_true]
      rw [ih]
      simp only [disconnect, List.filter_filter]
      refine Prod.ext (by simp [ha]) ?_
      apply List.filter_congr
      intro c _
      by_cases hca : c = a
      · subst hca; simp [ha]
      · simp [hca, List.contains_cons]
    · simp only [ha]
      rw [ih]
      refine Prod.ext (by simp [ha]) ?_
      apply List.filter_congr
      intro c _
      by_cases hca : c = a
      · subst hca; simp [ha]
      · simp [hca, List.contains_cons]

/-- One round of `handleBroadcast`: the message goes to every client of the map
whose write succeeds, and those clients are the map afterwards. -/
theorem handleBroadcast_eq (clients : Clients) (writeErr : Nat → Bool) (msg : Event) :
    handleBroadcast clients writeErr msg
      = ((clients.filter (fun c => !writeErr c)).map (fun c => (c, msg)),
         clients.filter (fun c => !writeErr c)) := by
  unfold handleBroadcast
  rw [handleBroadcast_fold]
  refine Prod.ext (by simp) ?_
  apply List.filter_congr
  intro c hc
  simp [hc]

theorem mem_connectAll (reqs : List (String × Nat)) :
    ∀ (clients : Clients) (conn : Nat),
      conn ∈ connectAll clients reqs ↔ conn ∈ clients ∨ ∃ tid, (tid, conn) ∈ reqs := by
  induction reqs with
  | nil => intro clients conn; simp [connectAll]
  | cons r reqs ih =>
    intro clients conn
    have hstep : connectAll clients (r :: reqs)
        = connectAll (handleWebSocket clients r.1 r.2 none) reqs := rfl
    rw [hstep, ih]
    obtain ⟨tid, c⟩ := r
    simp only [handleWebSocket, List.mem_cons, Prod.mk.injEq]
    by_cases hc : c ∈ clients
    · simp only [hc, if_true]
      constructor
      · rintro (h | ⟨t, h⟩)
        · exact Or.inl h
        · exact Or.inr ⟨t, Or.inr h⟩
      · rintro (h | ⟨t, (⟨_, rfl⟩ | h)⟩)
        · exact Or.inl h
        · exact Or.inl hc
        · exact Or.inr ⟨t, h⟩
    · simp only [hc, if_false, List.mem_append, List.mem_singleton]
      constructor
      · rintro ((h | rfl) | ⟨t, h⟩)
        · exact Or.inl h
        · exact Or.inr ⟨tid, Or.inl ⟨rfl, rfl⟩⟩
        · exact Or.inr ⟨t, Or.inr h⟩
      · rintro (h | ⟨t, (⟨_, rfl⟩ | h)⟩)
        · exact Or.inl (Or.inl h)
        · exact Or.inl (Or.inr rfl)
        · exact Or.inr ⟨t, h⟩

/-- C7, counterexample: connection 1 came in on the path of tournament `t1`,
connection 2 on the path of tournament `t2`; the `team_registered` event of
tournament `t1` is written to both. -/
theorem handleBroadcast_reaches_other_tournament :
    (handleBroadcast (connectAll [] [(exT1, 1), (exT2, 2)]) (fun _ => false)
        (.team_registered exT1 exA "A")).1
      = [(1, .team_registered exT1 exA "A"), (2, .team_registered exT1 exA "A")] := by
  decide

/-- C7, as the code has it: the hub keeps one map of connections for all
tournaments. After any list of connections, each made on the path of some
tournament, a message received by `handleBroadcast` is delivered to a
connection exactly when the connection is in the map and its write succeeds,
whatever tournament it came in for and whatever tournament the message is
about. -/
theorem handleBroadcast_delivers_to_all (reqs : List (String × Nat))
    (writeErr : Nat → Bool) (msg : Event) (conn : Nat) :
    (conn, msg) ∈ (handleBroadcast (connectAll [] reqs) writeErr msg).1
      ↔ (∃ tid, (tid, conn) ∈ reqs) ∧ writeErr conn = false := by
  rw [handleBroadcast_eq]
  simp [mem_connectAll]

/-! ### `getBracket` -/

theorem Bracket.get_set (b : Bracket) (k k1 : Int) (v : List Match) :
    (b.set k v).get k1 = if k = k1 then v else b.get k1 := by
  induction b with
  | nil => simp [Bracket.set, Bracket.get]
  | cons e rest ih =>
    obtain ⟨k0, v0⟩ := e
    by_cases h0 : k0 = k
    · subst h0
      by_cases h1 : k0 = k1 <;> simp [Bracket.set, Bracket.get, h1]
    · by_cases h1 : k0 = k1
      · subst h1
        have h2 : ¬ k = k0 := fun h => h0 h.symm
        simp [Bracket.set, Bracket.get, h0, h2]
      · simp [Bracket.set, Bracket.get, h0, h1, ih]

theorem Bracket.keys_set (b : Bracket) (k : Int) (v : List Match) :
    (b.set k v).map Prod.fst
      = if b.has k then b.map Prod.fst else b.map Prod.fst ++ [k] := by
  induction b with
  | nil => simp [Bracket.set, Bracket.has]
  | cons e rest ih =>
    obtain ⟨k0, v0⟩ := e
    by_cases h0 : k0 = k
    · subst h0; simp [Bracket.set, Bracket.has]
    · have ih1 : List.map Prod.fst (Bracket.set rest k v)
          = if rest.any (fun e => e.1 == k) then rest.map Prod.fst
            else rest.map Prod.fst ++ [k] := ih
      have hb0 : (k0 == k) = false := by simpa using h0
      simp only [Bracket.set, Bracket.has, h0, if_false, List.map_cons, List.any_cons, ih1,
        hb0, Bool.false_or]
      split <;> rfl

theorem Bracket.has_iff (b : Bracket) (k : Int) : b.has k = true ↔ k ∈ b.map Prod.fst := by
  simp only [Bracket.has, List.any_eq_true, beq_iff_eq, List.mem_map]

theorem Bracket.get_of_mem (b : Bracket) (hb : (b.map Prod.fst).Nodup) (e : Int × List Match)
    (he : e ∈ b) : b.get e.1 = e.2 := by
  induction b with
  | nil => cases he
  | cons e0 rest ih =>
    obtain ⟨k0, v0⟩ := e0
    simp only [List.map_cons, List.nodup_cons] at hb
    rcases List.mem_cons.mp he with h | h
    · subst h; simp [Bracket.get]
    · have hne : k0 ≠ e.1 := by
        intro hk
        exact hb.1 (hk ▸ List.mem_map_of_mem Prod.fst h)
      simp [Bracket.get, hne, ih hb.2 h]

/-- The grouping loop started from a map `b`: every slice grows by the matches
of its round, in order, and the keys stay distinct. -/
theorem groupByRound_fold (ms : List Match) :
    ∀ b : Bracket, (b.map Prod.fst).Nodup →
      (∀ r, (ms.foldl (fun bracket m => bracket.set m.Round (bracket.get m.Round ++ [m])) b).get r
          = b.get r ++ ms.filter (fun m => m.Round = r)) ∧
      ((ms.foldl (fun bracket m => bracket.set m.Round (bracket.get m.Round ++ [m])) b).map
          Prod.fst).Nodup ∧
      (∀ r, r ∈ (ms.foldl (fun bracket m => bracket.set m.Round (bracket.get m.Round ++ [m]))
            b).map Prod.fst ↔ r ∈ b.map Prod.fst ∨ ∃ m ∈ ms, m.Round = r) := by
  induction ms with
  | nil => intro b hb; simp [hb]
  | cons m ms ih =>
    intro b hb
    have hkeys := Bracket.keys_set b m.Round (b.get m.Round ++ [m])
    have hnodup : ((b.set m.Round (b.get m.Round ++ [m])).map Prod.fst).Nodup := by
      rw [hkeys]
      by_cases hh : b.has m.Round = true
      · simpa [hh] using hb
      · have hnot : m.Round ∉ b.map Prod.fst := fun hmem => hh ((Bracket.has_iff b _).mpr hmem)
        simp only [hh, Bool.false_eq_true, if_false]
        exact List.Nodup.append hb (List.nodup_singleton _) (by simpa using hnot)
    have hmemkeys : ∀ r, r ∈ (b.set m.Round (b.get m.Round ++ [m])).map Prod.fst
        ↔ r ∈ b.map Prod.fst ∨ r = m.Round := by
      intro r
      rw [hkeys]
      by_cases hh : b.has m.Round = true
      · have hin := (Bracket.has_iff b _).mp hh
        simp only [hh, if_true]
        constructor
        · exact Or.inl
        · rintro (h | rfl)
          · exact h
          · exact hin
      · simp [hh]
    obtain ⟨h1, h2, h3⟩ := ih _ hnodup
    simp only [List.foldl_cons]
    refine ⟨fun r => ?_, h2, fun r => ?_⟩
    · rw [h1, Bracket.get_set]
      by_cases hr : m.Round = r
      · subst hr; simp
      · simp [hr]
    · rw [h3, hmemkeys]
      simp only [List.mem_cons, exists_eq_or_imp]
      constructor
      · rintro ((h | h) | h)
        · exact Or.inl h
        · exact Or.inr (Or.inl h.symm)
        · exact Or.inr (Or.inr h)
      · rintro (h | h | h)
        · exact Or.inl (Or.inl h)
        · exact Or.inl (Or.inr h.symm)
        · exact Or.inr h

theorem scanBracketRow_fields (tournamentID : String) (r : MatchRow) (m : Match)
    (h : scanBracketRow tournamentID r = some m) :
    m.Round = r.round ∧ m.MatchNumber = r.match_number ∧ m.ID = r.id ∧
    m.TournamentID = tournamentID := by
  unfold scanBracketRow at h
  split at h
  · cases h; exact ⟨rfl, rfl, rfl, rfl⟩
  · cases h

/-- The query of `getBracket` returns the rows of the tournament, each once, in
the order of `ORDER BY round, match_number`. -/
theorem selectMatches_sorted (s : Store) (tournamentID : String) :
    (selectMatches s tournamentID).Pairwise (fun a b => roundMatchLe a b = true) ∧
    (selectMatches s tournamentID).Perm
      (s.matchRows.filter (fun m => m.tournament_id == some tournamentID)) := by
  refine ⟨?_, List.mergeSort_perm _ _⟩
  apply List.sorted_mergeSort
  · intro a b c hab hbc
    simp only [roundMatchLe, Bool.or_eq_true, Bool.and_eq_true, decide_eq_true_eq,
      beq_iff_eq] at hab hbc ⊢
    omega
  · intro a b
    simp only [roundMatchLe, Bool.or_eq_true, Bool.and_eq_true, decide_eq_true_eq,
      beq_iff_eq]
    omega

/-- The grouping loop on the matches read: for every list of rows the store
returns, with `ms` the matches read from them (a row whose `Scan` fails is
not among them), the bracket of `getBracket` holds under each round `r` exactly the
matches of `ms` whose round is `r`, in the order of `ms`; it has an entry for
`r` only when some match has round `r`; its keys are distinct; each match of
`ms` is in the slice of its own round and in no other; and when the rows come
in the order of `ORDER BY round, match_number`, every slice is in ascending
match number. -/
theorem getBracket_groups_by_round (tournamentID : String) (rows : List MatchRow) :
    (∀ r, (buildBracket tournamentID rows).get r
        = (scanMatches tournamentID rows).filter (fun m => m.Round = r)) ∧
    (∀ r, (buildBracket tournamentID rows).has r = true
        ↔ ∃ m ∈ scanMatches tournamentID rows, m.Round = r) ∧
    ((buildBracket tournamentID rows).map Prod.fst).Nodup ∧
    (∀ e ∈ buildBracket tournamentID rows,
        e.2 = (scanMatches tournamentID rows).filter (fun m => m.Round = e.1) ∧ e.2 ≠ []) ∧
    (∀ m ∈ scanMatches tournamentID rows, ∀ r,
        m ∈ (buildBracket tournamentID rows).get r ↔ r = m.Round) ∧
    (rows.Pairwise (fun a b => roundMatchLe a b = true) →
      ∀ r, ((buildBracket tournamentID rows).get r).Pairwise
        (fun x y => x.MatchNumber ≤ y.MatchNumber)) := by
  obtain ⟨h1, h2, h3⟩ := groupByRound_fold (scanMatches tournamentID rows) [] (by simp)
  have hget : ∀ r, (buildBracket tournamentID rows).get r
      = (scanMatches tournamentID rows).filter (fun m => m.Round = r) := by
    intro r
    have := h1 r
    simpa [Bracket.get] using this
  have hhas : ∀ r, (buildBracket tournamentID rows).has r = true
      ↔ ∃ m ∈ scanMatches tournamentID rows, m.Round = r := by
    intro r
    rw [Bracket.has_iff]
    have := h3 r
    simpa using this
  refine ⟨hget, hhas, h2, fun e he => ?_, fun m hm r => ?_, fun hsorted r => ?_⟩
  · have hge : (buildBracket tournamentID rows).get e.1 = e.2 :=
      Bracket.get_of_mem _ h2 e he
    have hfil := hget e.1
    have hkey : (buildBracket tournamentID rows).has e.1 = true :=
      (Bracket.has_iff _ _).mpr (List.mem_map_of_mem Prod.fst he)
    obtain ⟨m, hm, hr⟩ := (hhas e.1).mp hkey
    refine ⟨hge ▸ hfil, ?_⟩
    rw [← hge, hfil]
    intro hnil
    have : m ∈ (scanMatches tournamentID rows).filter (fun m => m.Round = e.1) := by
      simp [hm, hr]
    rw [hnil] at this
    cases this
  · rw [hget]
    simp only [List.mem_filter, hm, true_and, decide_eq_true_eq]
    exact eq_comm
  · rw [hget]
    have hms : (scanMatches tournamentID rows).Pairwise
        (fun x y =>
          x.Round < y.Round ∨ (x.Round = y.Round ∧ x.MatchNumber ≤ y.MatchNumber)) := by
      unfold scanMatches
      rw [List.pairwise_filterMap]
      refine hsorted.imp ?_
      intro a b hab x hx y hy
      obtain ⟨hxr, hxn, _⟩ := scanBracketRow_fields tournamentID a x hx
      obtain ⟨hyr, hyn, _⟩ := scanBracketRow_fields tournamentID b y hy
      simp only [roundMatchLe, Bool.or_eq_true, Bool.and_eq_true, decide_eq_true_eq,
        beq_iff_eq] at hab
      rw [hxr, hyr, hxn, hyn]
      exact hab
    refine (hms.filter _).imp_of_mem ?_
    intro x y hx hy hxy
    have hxr : x.Round = r := by simpa using (List.mem_filter.mp hx).2
    have hyr : y.Round = r := by simpa using (List.mem_filter.mp hy).2
    rcases hxy with h | h
    · omega
    · exact h.2

/-- The slice of a round in terms of the rows returned: the rows of that round
that `Scan` reads, in the order returned. -/
theorem buildBracket_get_rows (tournamentID : String) (rows : List MatchRow) (r : Int) :
    (buildBracket tournamentID rows).get r
      = (rows.filter (fun row => row.round = r)).filterMap (scanBracketRow tournamentID) := by
  rw [(getBracket_groups_by_round tournamentID rows).1 r]
  unfold scanMatches
  induction rows with
  | nil => rfl
  | cons row rows ih =>
    cases hscan : scanBracketRow tournamentID row with
    | none =>
      by_cases hr : row.round = r
      · simp [List.filterMap_cons, List.filter_cons, hscan, hr, ih]
      · simp [List.filterMap_cons, List.filter_cons, hscan, hr, ih]
    | some m =>
      have hm := (scanBracketRow_fields tournamentID row m hscan).1
      by_cases hr : row.round = r
      · have hmr : m.Round = r := hm.trans hr
        simp [List.filterMap_cons, List.filter_cons, hscan, hr, hmr, ih]
      · have hmr : ¬ m.Round = r := fun h => hr (hm.symm.trans h)
        simp [List.filterMap_cons, List.filter_cons, hscan, hr, hmr, ih]

/-- A row with a NULL among the five nullable columns `getBracket` scans is in
no slice of the bracket. -/
theorem buildBracket_skips_null (tournamentID : String) (rows : List MatchRow)
    (row : MatchRow)
    (hnull : row.team1_id = none ∨ row.team2_id = none ∨ row.winner_id = none ∨
      row.score = none ∨ row.status = none) :
    scanBracketRow tournamentID row = none ∧
    ∀ r, ∀ m ∈ (buildBracket tournamentID (row :: rows)).get r,
      m ∈ (buildBracket tournamentID rows).get r := by
  have hscan : scanBracketRow tournamentID row = none := by
    unfold scanBracketRow
    split
    · rename_i h1 h2 h3 h4 h5
      rcases hnull with h | h | h | h | h <;> simp_all
    · rfl
  refine ⟨hscan, fun r m hm => ?_⟩
  rw [buildBracket_get_rows] at hm ⊢
  by_cases hr : row.round = r
  · simpa [List.filter_cons, hr, List.filterMap_cons, hscan] using hm
  · simpa [List.filter_cons, hr] using hm

/-- C10: tournament `t1` has one match row, freshly scheduled (round 1, match
number 1, teams `a` and `b`, winner and score NULL). The query of `getBracket`
returns that row, `Scan` cannot read its NULL winner into a string, the loop
skips it, and the answer is 200 with an empty bracket: the match is in no
group. Of two rows returned for round 1, one played and one not, only the
played one is in the bracket. -/
theorem getBracket_drops_unplayed_match :
    selectMatches (exStoreMatch (exMatch "scheduled" none none none)) exT1
      = [exMatch "scheduled" none none none] ∧
    getBracket (exStoreMatch (exMatch "scheduled" none none none)) exT1 none
      = ⟨exStoreMatch (exMatch "scheduled" none none none), ⟨200, .bracket []⟩, []⟩ ∧
    buildBracket exT1
        [{ exMatch "completed" (some exA) (some 90) (some 100) with score := some "2-0" },
         { exMatch "scheduled" none none none with match_number := 2 }]
      = [(1, [⟨exM1, exT1, 1, 1, exA, exB, exA, "2-0", "completed", 0, none, none⟩])] := by
  have hfilter : (exStoreMatch (exMatch "scheduled" none none none)).matchRows.filter
      (fun m => m.tournament_id == some exT1) = [exMatch "scheduled" none none none] := by
    decide
  have hsel : selectMatches (exStoreMatch (exMatch "scheduled" none none none)) exT1
      = [exMatch "scheduled" none none none] := by
    unfold selectMatches
    rw [hfilter]
    exact List.mergeSort_singleton _
  refine ⟨hsel, ?_, by decide⟩
  show (⟨_, ⟨200, .bracket (buildBracket exT1 (selectMatches _ exT1))⟩, []⟩ : Result) = _
  rw [hsel]
  decide

/-- The response of `getBracket` when the query succeeds: status 200 with the
bracket built from the rows selected, the store untouched. -/
theorem getBracket_ok (s : Store) (tournamentID : String) :
    getBracket s tournamentID none
      = ⟨s, ⟨200, .bracket (buildBracket tournamentID (selectMatches s tournamentID))⟩,
         []⟩ :=
  rfl

/-! ### Counts and capacity along runs -/

theorem registerTeam_store_cases (s : Store) (tournamentID : String)
    (req : RegisterTeamRequest) (env : RegisterTeamEnv) :
    (registerTeam s tournamentID req env).store = s ∨
    ∃ t, s.tournament? tournamentID = some t ∧ t.CurrentTeams < t.MaxTeams ∧
      (registerTeam s tournamentID req env).store.teams
        = s.teams ++ [newTeam tournamentID req env t.CurrentTeams] ∧
      (registerTeam s tournamentID req env).store.matchRows = s.matchRows ∧
      ((env.updateErr = none ∧
          (registerTeam s tournamentID req env).store.tournaments
            = s.tournaments.map (bumpTeams tournamentID)) ∨
       (env.updateErr ≠ none ∧
          (registerTeam s tournamentID req env).store.tournaments = s.tournaments)) := by
  unfold registerTeam selectTeamCounts
  cases hsel : env.selectErr with
  | some e => left; rfl
  | none =>
    cases hfind : s.tournaments.find? (fun t => t.ID == tournamentID) with
    | none => left; rfl
    | some t =>
      by_cases hfull : t.CurrentTeams ≥ t.MaxTeams
      · left; simp [hfull]
      · simp only [hfull, if_false]
        unfold insertTeam
        cases hins : env.insertErr with
        | some e => left; rfl
        | none =>
          by_cases hdup : (s.teams.any fun tm =>
              tm.ID == (newTeam tournamentID req env t.CurrentTeams).ID) = true
          · left; simp [hdup]
          · right
            refine ⟨t, hfind, not_le.mp hfull, ?_⟩
            simp only [hdup, Bool.false_eq_true, if_false]
            unfold incrementTeamCount
            cases hupd : env.updateErr with
            | some e => exact ⟨rfl, rfl, Or.inr ⟨by simp, rfl⟩⟩
            | none => exact ⟨rfl, rfl, Or.inl ⟨rfl, rfl⟩⟩

theorem createTournament_store_cases (s : Store) (req : CreateTournamentRequest)
    (userID : String) (env : CreateTournamentEnv) :
    ((createTournament s req userID env).store = s ∧
      (createTournament s req userID env).resp.code = 500) ∨
    ((createTournament s req userID env).store
        = { s with tournaments := s.tournaments ++ [newTournament req userID env] } ∧
      (∀ t ∈ s.tournaments, t.ID ≠ env.tournamentID) ∧
      (createTournament s req userID env).resp.code = 201) := by
  unfold createTournament insertTournament
  cases hins : env.insertErr with
  | some e => left; exact ⟨rfl, rfl⟩
  | none =>
    by_cases hdup : (s.tournaments.any fun t => t.ID == (newTournament req userID env).ID) = true
    · left; simp [hdup]
    · right
      refine ⟨by simp [hdup], ?_, by simp [hdup]⟩
      intro t ht hid
      apply hdup
      simp only [List.any_eq_true, beq_iff_eq]
      exact ⟨t, ht, hid⟩

theorem find?_unique (l : List Tournament) (id : String) (t t1 : Tournament)
    (hnodup : (l.map (fun t => t.ID)).Nodup)
    (hfind : l.find? (fun t => t.ID == id) = some t) (hmem : t1 ∈ l) (hid : t1.ID = id) :
    t1 = t := by
  have htmem : t ∈ l := List.mem_of_find?_eq_some hfind
  have htid : t.ID = id := by simpa using List.find?_some hfind
  exact List.inj_on_of_nodup_map hnodup hmem htmem (hid.trans htid.symm)

theorem setTournament_fields (id : String) (req : CreateTournamentRequest) (now : Nat)
    (t : Tournament) :
    (setTournament id req now t).ID = t.ID ∧
    (setTournament id req now t).CurrentTeams = t.CurrentTeams ∧
    ((setTournament id req now t).MaxTeams = t.MaxTeams ∨
      (t.ID = id ∧ (setTournament id req now t).MaxTeams = req.MaxTeams)) := by
  unfold setTournament
  by_cases h : t.ID = id
  · simp [h]
  · simp [h]

theorem serve_inv (s : Store) (c : Cmd) (h : StoreInv s) : StoreInv (c.serve s).store := by
  obtain ⟨hnodup, hnonneg⟩ := h
  cases c with
  | createTournament req userID env =>
    rcases createTournament_store_cases s req userID env with ⟨h1, _⟩ | ⟨h1, hfresh, _⟩
    · simp only [Cmd.serve, h1]; exact ⟨hnodup, hnonneg⟩
    · simp only [Cmd.serve, h1, StoreInv, List.map_append, List.map_cons, List.map_nil]
      refine ⟨List.Nodup.append hnodup (List.nodup_singleton _) ?_, ?_⟩
      · rw [List.disjoint_singleton]
        intro hmem
        obtain ⟨t, ht, hid⟩ := List.mem_map.mp hmem
        exact hfresh t ht hid
      · intro t ht
        rcases List.mem_append.mp ht with h | h
        · exact hnonneg t h
        · rw [List.mem_singleton.mp h]; simp [newTournament]
  | updateTournament id req now execErr =>
    cases execErr with
    | some e => exact ⟨hnodup, hnonneg⟩
    | none =>
      simp only [Cmd.serve, updateTournament, StoreInv, List.map_map]
      refine ⟨?_, ?_⟩
      · have : ((fun t : Tournament => t.ID) ∘ setTournament id req now)
            = (fun t : Tournament => t.ID) := by
          funext t; exact (setTournament_fields id req now t).1
        rw [this]; exact hnodup
      · intro t ht
        obtain ⟨t0, ht0, rfl⟩ := List.mem_map.mp ht
        rw [(setTournament_fields id req now t0).2.1]
        exact hnonneg t0 ht0
  | registerTeam tournamentID req env =>
    rcases registerTeam_store_cases s tournamentID req env with h1 | ⟨t, _, _, _, _, h5⟩
    · simp only [Cmd.serve, h1]; exact ⟨hnodup, hnonneg⟩
    · rcases h5 with ⟨_, h5⟩ | ⟨_, h5⟩
      · simp only [Cmd.serve, StoreInv, h5, List.map_map]
        refine ⟨?_, ?_⟩
        · have : ((fun t : Tournament => t.ID) ∘ bumpTeams tournamentID)
              = (fun t : Tournament => t.ID) := by
            funext t; exact bumpTeams_ID tournamentID t
          rw [this]; exact hnodup
        · intro t1 ht1
          obtain ⟨t0, ht0, rfl⟩ := List.mem_map.mp ht1
          have := hnonneg t0 ht0
          unfold bumpTeams
          split
          · show 0 ≤ t0.CurrentTeams + 1
            omega
          · exact this
      · simp only [Cmd.serve, StoreInv, h5]; exact ⟨hnodup, hnonneg⟩
  | updateMatch matchID update now execErr =>
    cases execErr with
    | some e => exact ⟨hnodup, hnonneg⟩
    | none => exact ⟨hnodup, hnonneg⟩
  | deleteTournament id execErr =>
    cases execErr with
    | some e => exact ⟨hnodup, hnonneg⟩
    | none =>
      simp only [Cmd.serve, deleteTournament, StoreInv]
      refine ⟨?_, ?_⟩
      · exact List.Nodup.sublist (List.Sublist.map _ (List.filter_sublist _)) hnodup
      · intro t ht
        exact hnonneg t (List.mem_filter.mp ht).1

theorem serve_capacity (s : Store) (c : Cmd) (h : StoreInv s) (hcap : WithinCapacity s)
    (hc : c.keepsCapacity s) : WithinCapacity (c.serve s).store := by
  obtain ⟨hnodup, _⟩ := h
  cases c with
  | createTournament req userID env =>
    rcases createTournament_store_cases s req userID env with ⟨h1, _⟩ | ⟨h1, _, _⟩
    · simp only [Cmd.serve, h1]; exact hcap
    · simp only [Cmd.serve, h1, WithinCapacity]
      intro t ht
      rcases List.mem_append.mp ht with h | h
      · exact hcap t h
      · rw [List.mem_singleton.mp h]
        simpa [newTournament] using hc
  | updateTournament id req now execErr =>
    cases execErr with
    | some e => exact hcap
    | none =>
      simp only [Cmd.serve, updateTournament, WithinCapacity]
      intro t ht
      obtain ⟨t0, ht0, rfl⟩ := List.mem_map.mp ht
      obtain ⟨_, hcur, hmax⟩ := setTournament_fields id req now t0
      rw [hcur]
      rcases hmax with hmax | ⟨hid, hmax⟩
      · rw [hmax]; exact hcap t0 ht0
      · rw [hmax]; exact hc t0 ht0 hid
  | registerTeam tournamentID req env =>
    rcases registerTeam_store_cases s tournamentID req env with h1 | ⟨t, hfind, hlt, _, _, h5⟩
    · simp only [Cmd.serve, h1]; exact hcap
    · rcases h5 with ⟨_, h5⟩ | ⟨_, h5⟩
      · simp only [Cmd.serve, WithinCapacity, h5]
        intro t1 ht1
        obtain ⟨t0, ht0, rfl⟩ := List.mem_map.mp ht1
        unfold bumpTeams
        split
        · rename_i hid
          have hid1 : t0.ID = tournamentID := by simpa using hid
          have : t0 = t := find?_unique _ _ _ _ hnodup hfind ht0 hid1
          subst this
          show t0.CurrentTeams + 1 ≤ t0.MaxTeams
          omega
        · exact hcap t0 ht0
      · simp only [Cmd.serve, WithinCapacity, h5]; exact hcap
  | updateMatch matchID update now execErr =>
    cases execErr with
    | some e => exact hcap
    | none => exact hcap
  | deleteTournament id execErr =>
    cases execErr with
    | some e => exact hcap
    | none =>
      simp only [Cmd.serve, deleteTournament, WithinCapacity]
      intro t ht
      exact hcap t (List.mem_filter.mp ht).1

theorem run_inv (cmds : List Cmd) : ∀ s, StoreInv s → StoreInv (run s cmds) := by
  induction cmds with
  | nil => intro s h; exact h
  | cons c rest ih => intro s h; exact ih _ (serve_inv s c h)

theorem run_capacity (cmds : List Cmd) :
    ∀ s, StoreInv s → WithinCapacity s → allKeepCapacity s cmds →
      WithinCapacity (run s cmds) := by
  induction cmds with
  | nil => intro s _ h _; exact h
  | cons c rest ih =>
    intro s h hcap hall
    exact ih _ (serve_inv s c h) (serve_capacity s c h hcap hall.1) hall.2

theorem activeTeams_append_new (s s1 : Store) (tournamentID : String)
    (req : RegisterTeamRequest) (env : RegisterTeamEnv) (cur : Int)
    (h : s1.teams = s.teams ++ [newTeam tournamentID req env cur]) :
    activeTeams s1 tournamentID = activeTeams s tournamentID + 1 := by
  unfold activeTeams
  rw [h, List.filter_append]
  have hnew : ([newTeam tournamentID req env cur].filter
      (fun tm => tm.TournamentID == tournamentID && tm.Status != "withdrawn"))
      = [newTeam tournamentID req env cur] := by
    simp [newTeam]
  rw [hnew]
  simp

theorem runRegistrations_count (tournamentID : String) (maxTeams : Int)
    (calls : List (RegisterTeamRequest × RegisterTeamEnv)) :
    ∀ s : Store, (∀ c ∈ calls, c.2.updateErr = none) →
      (∃ t, s.tournament? tournamentID = some t ∧ t.MaxTeams = maxTeams ∧
        t.CurrentTeams = activeTeams s tournamentID ∧
        (0 ≤ maxTeams → t.CurrentTeams ≤ maxTeams)) →
      ∃ t, (runRegistrations s tournamentID calls).tournament? tournamentID = some t ∧
        t.MaxTeams = maxTeams ∧
        t.CurrentTeams = activeTeams (runRegistrations s tournamentID calls) tournamentID ∧
        (0 ≤ maxTeams → t.CurrentTeams ≤ maxTeams) := by
  induction calls with
  | nil => intro s _ h; exact h
  | cons c rest ih =>
    intro s hupd h
    apply ih _ (fun c1 hc1 => hupd c1 (List.mem_cons_of_mem _ hc1))
    obtain ⟨t, hfind, hmax, hcur, hle⟩ := h
    rcases registerTeam_store_cases s tournamentID c.1 c.2 with
      h1 | ⟨t1, hfind1, hlt, h3, _, h5⟩
    · rw [h1]; exact ⟨t, hfind, hmax, hcur, hle⟩
    · have ht1 : t1 = t := Option.some.inj (hfind1.symm.trans hfind)
      subst ht1
      have hid : t1.ID = tournamentID := by
        have : s.tournaments.find? (fun t => t.ID == tournamentID) = some t1 := hfind
        simpa using List.find?_some this
      rcases h5 with ⟨_, h5⟩ | ⟨hne, _⟩
      · refine ⟨bumpTeams tournamentID t1, ?_, ?_, ?_, ?_⟩
        · have hfind2 : s.tournaments.find? (fun t => t.ID == tournamentID) = some t1 := hfind
          simp only [Store.tournament?, h5]
          rw [find?_map_of_id _ _ _ (bumpTeams_ID tournamentID), hfind2]
          rfl
        · simp [bumpTeams, hid, hmax]
        · rw [activeTeams_append_new s _ tournamentID c.1 c.2 t1.CurrentTeams h3, ← hcur]
          simp [bumpTeams, hid]
        · intro _
          have : (bumpTeams tournamentID t1).CurrentTeams = t1.CurrentTeams + 1 := by
            simp [bumpTeams, hid]
          rw [this]
          omega
      · exact absurd (hupd c (List.mem_cons_self _ _)) hne

/-- C2, counterexample: a tournament is created with max_teams = -1 in the
empty store and one registration is served (it is answered 400). The
tournament is stored with current_teams = 0 and no team references it: the
number of its non-withdrawn teams, 0, is above max_teams = -1. -/
theorem registrations_exceed_negative_capacity :
    (createTournament Store.empty (exCreate (-1)) "" exCreateEnv).resp.code = 201 ∧
    ((runRegistrations (createTournament Store.empty (exCreate (-1)) "" exCreateEnv).store exT1
        [(exRegister "A", .ok exA 5)]).tournament? exT1).map
      (fun t => (t.CurrentTeams, t.MaxTeams)) = some (0, -1) ∧
    activeTeams (runRegistrations
        (createTournament Store.empty (exCreate (-1)) "" exCreateEnv).store exT1
        [(exRegister "A", .ok exA 5)]) exT1 = 0 ∧
    ¬ ((0 : Int) ≤ -1) := by
  decide

/-- C2, as the code has it: a tournament is created (answered 201) in a store
whose teams all reference stored tournaments, and any list of registrations for
it is served one after another, the store executing every count update it is
sent. Afterwards the tournament is stored with the max_teams of the creation
request, its current_teams equals the number of non-withdrawn teams that
reference it, and that number is at most max_teams when max_teams >= 0. -/
theorem registrations_count (s0 : Store) (req : CreateTournamentRequest) (userID : String)
    (cenv : CreateTournamentEnv) (calls : List (RegisterTeamRequest × RegisterTeamEnv))
    (hfk : ∀ tm ∈ s0.teams, ∃ t ∈ s0.tournaments, t.ID = tm.TournamentID)
    (hcreated : (createTournament s0 req userID cenv).resp.code = 201)
    (hupd : ∀ c ∈ calls, c.2.updateErr = none) :
    ∃ t, (runRegistrations (createTournament s0 req userID cenv).store cenv.tournamentID
          calls).tournament? cenv.tournamentID = some t ∧
      t.MaxTeams = req.MaxTeams ∧
      t.CurrentTeams = activeTeams (runRegistrations (createTournament s0 req userID cenv).store
          cenv.tournamentID calls) cenv.tournamentID ∧
      (0 ≤ req.MaxTeams →
        activeTeams (runRegistrations (createTournament s0 req userID cenv).store
          cenv.tournamentID calls) cenv.tournamentID ≤ t.MaxTeams) := by
  have hstart : ∃ t, (createTournament s0 req userID cenv).store.tournament? cenv.tournamentID
        = some t ∧ t.MaxTeams = req.MaxTeams ∧
      t.CurrentTeams = activeTeams (createTournament s0 req userID cenv).store cenv.tournamentID ∧
      (0 ≤ req.MaxTeams → t.CurrentTeams ≤ req.MaxTeams) := by
    rcases createTournament_store_cases s0 req userID cenv with
      ⟨_, h500⟩ | ⟨hstore, hfresh, _⟩
    · rw [h500] at hcreated; cases hcreated
    · refine ⟨newTournament req userID cenv, ?_, rfl, ?_, fun h => h⟩
      · rw [hstore]
        simp only [Store.tournament?, List.find?_append]
        have hnone : s0.tournaments.find? (fun t => t.ID == cenv.tournamentID) = none := by
          rw [List.find?_eq_none]
          intro t ht
          simpa using hfresh t ht
        rw [hnone]
        simp [newTournament]
      · rw [hstore]
        have hempty : s0.teams.filter
            (fun tm => tm.TournamentID == cenv.tournamentID && tm.Status != "withdrawn") = [] := by
          rw [List.filter_eq_nil_iff]
          intro tm htm
          obtain ⟨t, ht, hid⟩ := hfk tm htm
          have hne : tm.TournamentID ≠ cenv.tournamentID := by
            intro heq
            exact hfresh t ht (hid.trans heq)
          simp [hne]
        simp [activeTeams, hempty, newTournament]
  obtain ⟨t, h1, h2, h3, h4⟩ :=
    runRegistrations_count cenv.tournamentID req.MaxTeams calls _ hupd hstart
  exact ⟨t, h1, h2, h3, fun h => by rw [← h3, h2]; exact h4 h⟩

/-- Witness of `registrations_count`: a tournament with max_teams = 2 is
created in the empty store and three registrations follow; two teams are
stored and current_teams = 2. -/
theorem registrations_count_witness :
    (createTournament Store.empty (exCreate 2) "" exCreateEnv).resp.code = 201 ∧
    activeTeams (runRegistrations (createTournament Store.empty (exCreate 2) "" exCreateEnv).store
        exT1 [(exRegister "A", .ok exA 5), (exRegister "B", .ok exB 6),
          (exRegister "C", .ok exC 7)]) exT1 = 2 ∧
    ∃ t, (runRegistrations (createTournament Store.empty (exCreate 2) "" exCreateEnv).store
          exCreateEnv.tournamentID
          [(exRegister "A", .ok exA 5), (exRegister "B", .ok exB 6),
            (exRegister "C", .ok exC 7)]).tournament? exCreateEnv.tournamentID = some t ∧
      t.MaxTeams = (exCreate 2).MaxTeams ∧
      t.CurrentTeams = activeTeams (runRegistrations
          (createTournament Store.empty (exCreate 2) "" exCreateEnv).store
          exCreateEnv.tournamentID
          [(exRegister "A", .ok exA 5), (exRegister "B", .ok exB 6),
            (exRegister "C", .ok exC 7)]) exCreateEnv.tournamentID :=
  ⟨by decide, by decide,
    let ⟨t, h1, h2, h3, _⟩ :=
      registrations_count Store.empty (exCreate 2) "" exCreateEnv
        [(exRegister "A", .ok exA 5), (exRegister "B", .ok exB 6), (exRegister "C", .ok exC 7)]
        (by intro tm htm; simp [Store.empty] at htm) (by decide)
        (by intro c hc; simp at hc; rcases hc with rfl | rfl | rfl <;> rfl)
    ⟨t, h1, h2, h3⟩⟩

/-- C8, counterexample: from the empty store, a tournament is created with
max_teams = 1, one team registers, and the tournament is updated with
max_teams = 0: the stored counts are current_teams = 1, max_teams = 0. And a
tournament created with max_teams = -1 is stored with current_teams = 0 above
its max_teams. -/
theorem capacity_invariant_broken :
    (run Store.empty
        [.createTournament (exCreate 1) "" exCreateEnv,
         .registerTeam exT1 (exRegister "A") (.ok exA 5),
         .updateTournament exT1 (exCreate 0) 7 none]).tournaments.map
      (fun t => (t.CurrentTeams, t.MaxTeams)) = [(1, 0)] ∧
    (run Store.empty [.createTournament (exCreate (-1)) "" exCreateEnv]).tournaments.map
      (fun t => (t.CurrentTeams, t.MaxTeams)) = [(0, -1)] := by
  decide

/-- C8, as the code has it: after every list of the five commands served one
after another from the empty store, whatever errors the store reports, every
stored tournament has 0 <= current_teams; and current_teams <= max_teams holds
for every stored tournament when each creation asks for max_teams >= 0 and each
tournament update asks for a max_teams that is at least the current_teams of
the tournament it updates. -/
theorem reachable_counts (cmds : List Cmd) :
    (∀ t ∈ (run Store.empty cmds).tournaments, 0 ≤ t.CurrentTeams) ∧
    (allKeepCapacity Store.empty cmds →
      ∀ t ∈ (run Store.empty cmds).tournaments, t.CurrentTeams ≤ t.MaxTeams) := by
  have h0 : StoreInv Store.empty := by
    refine ⟨by simp [Store.empty], ?_⟩
    intro t ht
    simp [Store.empty] at ht
  have hcap0 : WithinCapacity Store.empty := by
    intro t ht
    simp [Store.empty] at ht
  exact ⟨(run_inv cmds _ h0).2, fun hall => run_capacity cmds _ h0 hcap0 hall⟩

end TournamentService
